import Mathlib

/-!
Verification development for the robot-firmware core: the line-following
state machine (`src/robot-firmware/src/line/LineFollower.cpp`) and the
command-protocol dispatcher (`src/robot-firmware/src/comm/NetworkManager.cpp`).

The C++ classes are shallowly embedded as Lean structures with pure
transition functions.  Motor commands and fixed delays are recorded as an
emitted event trace; the blocking busy-wait loops that poll sensors until a
condition holds are modelled as functions consuming a list of sensor reads
(`none` when the list is exhausted before the condition holds, matching the
possibly unbounded wait).  The `int _currentStep` member is modelled as a
`Nat`: it starts at 0 and is only ever incremented in the source.
-/

/-- Robot driving states, mirroring `enum class RobotState` in
`LineFollower.h` (IDLE=0 .. OUT_OF_LINE=12). -/
inductive RobotState
  | IDLE
  | FORWARD
  | SOFT_LEFT
  | SOFT_RIGHT
  | HARD_LEFT
  | HARD_RIGHT
  | CROSS_DETECTED
  | FINDING_LEFT
  | FINDING_RIGHT
  | FINDING_UTURN
  | PASSING_STRAIGHT
  | ARRIVED
  | OUT_OF_LINE
  deriving DecidableEq, Repr

/-- Path operators, mirroring `enum class PathCommand` in `LineFollower.h`
(NONE=0, LEFT=1, RIGHT=2, UTURN=3, STRAIGHT=4, END=5). -/
inductive PathCommand
  | NONE
  | LEFT
  | RIGHT
  | UTURN
  | STRAIGHT
  | END
  deriving DecidableEq, Repr

/-- The `static_cast<PathCommand>(cmdValue)` followed by the `switch` in
`executeCrossroadCommand`: values 1..5 map to the named operators, every
other value falls into the `default` branch, modelled by `NONE`. -/
def PathCommand.ofInt (v : Int) : PathCommand :=
  if v = 1 then .LEFT
  else if v = 2 then .RIGHT
  else if v = 3 then .UTURN
  else if v = 4 then .STRAIGHT
  else if v = 5 then .END
  else .NONE

/-- Motor primitives of `MotorController` used by the follower. -/
inductive MotorAction
  | goForward
  | turnLeftSoft
  | turnRightSoft
  | turnLeftHard
  | turnRightHard
  | uTurnRight
  | stop
  deriving DecidableEq, Repr

/-- One five-channel IR sensor snapshot (`readSensors` output), left-to-right
s1..s5, each reading 0 or 1 on the hardware. -/
structure Sensors where
  s1 : Nat
  s2 : Nat
  s3 : Nat
  s4 : Nat
  s5 : Nat
  deriving DecidableEq, Repr

/-- Externally visible effects of a follower step: a motor command, a fixed
`delay(n)` in milliseconds, or entry into one of the three blocking
line-re-acquisition waits (whose read-consuming behaviour is modelled
separately by `waitForLineAfterLeft` / `...Right` / `...Uturn`). -/
inductive Event
  | motor (a : MotorAction)
  | delayMs (n : Nat)
  | waitAfterLeft
  | waitAfterRight
  | waitAfterUturn
  deriving DecidableEq, Repr

/-- The mutable state of the `LineFollower` class: path string, progress
index, running flag, robot state, node label, and the cached sensor values
`_s1.._s5` kept for telemetry. -/
structure LineFollower where
  pathString : String
  currentStep : Nat
  isRunning : Bool
  state : RobotState
  nodeName : String
  s1 : Nat
  s2 : Nat
  s3 : Nat
  s4 : Nat
  s5 : Nat
  deriving DecidableEq, Repr

/-- Constructor state of `LineFollower` (LineFollower.cpp lines 13-22):
empty path, step 0, not running, IDLE, node name "-", sensors zeroed. -/
def LineFollower.initial : LineFollower :=
  { pathString := ""
    currentStep := 0
    isRunning := false
    state := .IDLE
    nodeName := "-"
    s1 := 0, s2 := 0, s3 := 0, s4 := 0, s5 := 0 }

/-- `LineFollower::setPath` (lines 28-32): replace the path string and reset
the progress index to 0. -/
def LineFollower.setPath (lf : LineFollower) (path : String) : LineFollower :=
  { lf with pathString := path, currentStep := 0 }

/-- `LineFollower::start` (lines 34-44): a no-op when the path string is
empty (only a warning is logged); otherwise set running, reset the index,
state FORWARD, node label "출발" (the start label). -/
def LineFollower.start (lf : LineFollower) : LineFollower :=
  if lf.pathString.length = 0 then lf
  else { lf with isRunning := true, currentStep := 0, state := .FORWARD, nodeName := "출발" }

/-- `LineFollower::stop` (lines 46-51): clear running, state IDLE, halt the
motors. -/
def LineFollower.stop (lf : LineFollower) : LineFollower × List Event :=
  ({ lf with isRunning := false, state := .IDLE }, [.motor .stop])

/-- `LineFollower::detectCrossroad` (lines 92-96): both outermost sensors
active, or both inner-flank sensors active with the centre inactive. -/
def LineFollower.detectCrossroad (s1 s2 s3 s4 s5 : Nat) : Bool :=
  (s1 == 1 && s5 == 1) || (s2 == 1 && s4 == 1 && s3 == 0)

/-- `LineFollower::followLine` (lines 173-204): the ordered if-else chain of
line-centering corrections, first match wins; the final else halts the
motors and reports OUT_OF_LINE. -/
def LineFollower.followLine (lf : LineFollower) (s1 s2 s3 s4 s5 : Nat) :
    LineFollower × MotorAction :=
  if s3 == 1 && s1 == 0 && s5 == 0 then
    ({ lf with state := .FORWARD }, .goForward)
  else if s2 == 1 && s1 == 0 then
    ({ lf with state := .SOFT_LEFT }, .turnLeftSoft)
  else if s4 == 1 && s5 == 0 then
    ({ lf with state := .SOFT_RIGHT }, .turnRightSoft)
  else if s1 == 1 then
    ({ lf with state := .HARD_LEFT }, .turnLeftHard)
  else if s5 == 1 then
    ({ lf with state := .HARD_RIGHT }, .turnRightHard)
  else
    ({ lf with state := .OUT_OF_LINE }, .stop)

/-- Arduino `String::charAt(i)`: the character at index `i`, the NUL
character when out of range (never reached under the guards in the source). -/
def LineFollower.charAt (s : String) (i : Nat) : Char :=
  s.data.getD i (Char.ofNat 0)

/-- The expression `_pathString.charAt(_currentStep) - '0'` of
`executeCrossroadCommand` line 113, as an integer. -/
def LineFollower.cmdValueAt (path : String) (i : Nat) : Int :=
  ((LineFollower.charAt path i).toNat : Int) - ('0'.toNat : Int)

/-- `LineFollower::executeCrossroadCommand` (lines 102-167).  When the
progress index has reached the path length: ARRIVED, label "도착" (the
arrived label), running cleared, and an early return (no index change).
Otherwise the operator digit at the index is decoded and dispatched; every
switch branch falls through to `_currentStep++`. -/
def LineFollower.executeCrossroadCommand (lf : LineFollower) :
    LineFollower × List Event :=
  if lf.pathString.length ≤ lf.currentStep then
    ({ lf with state := .ARRIVED, nodeName := "도착", isRunning := false }, [])
  else
    let cmdValue := LineFollower.cmdValueAt lf.pathString lf.currentStep
    let r : LineFollower × List Event :=
      match PathCommand.ofInt cmdValue with
      | .END =>
          ({ lf with state := .ARRIVED, nodeName := "도착", isRunning := false }, [])
      | .LEFT =>
          ({ lf with state := .FINDING_LEFT },
           [.motor .goForward, .delayMs 150, .motor .turnLeftHard, .delayMs 250,
            .waitAfterLeft])
      | .RIGHT =>
          ({ lf with state := .FINDING_RIGHT },
           [.motor .goForward, .delayMs 150, .motor .turnRightHard, .delayMs 250,
            .waitAfterRight])
      | .UTURN =>
          ({ lf with state := .FINDING_UTURN },
           [.motor .goForward, .delayMs 150, .motor .uTurnRight, .delayMs 250,
            .waitAfterUturn])
      | .STRAIGHT =>
          ({ lf with state := .PASSING_STRAIGHT },
           [.motor .goForward, .delayMs 300])
      | .NONE => (lf, [])
    ({ r.1 with currentStep := r.1.currentStep + 1 }, r.2)

/-- `LineFollower::update` (lines 57-86): cache the fresh sensor read; when
not running force IDLE and halt; on a detected crossroad halt, settle for
500 ms, advance the node label to "A(step+1)" and execute the next path
operator; otherwise run one line-centering step followed by `delay(10)`. -/
def LineFollower.update (lf : LineFollower) (r : Sensors) :
    LineFollower × List Event :=
  let lf := { lf with s1 := r.s1, s2 := r.s2, s3 := r.s3, s4 := r.s4, s5 := r.s5 }
  if !lf.isRunning then
    ({ lf with state := .IDLE }, [.motor .stop])
  else if LineFollower.detectCrossroad lf.s1 lf.s2 lf.s3 lf.s4 lf.s5 then
    let lf := { lf with state := .CROSS_DETECTED,
                        nodeName := "A" ++ toString (lf.currentStep + 1) }
    let e := LineFollower.executeCrossroadCommand lf
    (e.1, [.motor .stop, .delayMs 500] ++ e.2)
  else
    let f := LineFollower.followLine lf lf.s1 lf.s2 lf.s3 lf.s4 lf.s5
    (f.1, [.motor f.2, .delayMs 10])

/-- One public operation on the follower, for reachability statements. -/
inductive Op
  | setPathOp (p : String)
  | startOp
  | stopOp
  | updateOp (r : Sensors)

/-- Apply one public operation (discarding the emitted event trace). -/
def LineFollower.applyOp (lf : LineFollower) : Op → LineFollower
  | .setPathOp p => lf.setPath p
  | .startOp => lf.start
  | .stopOp => lf.stop.1
  | .updateOp r => (lf.update r).1

/-- The follower state reached by running a sequence of public operations
from the constructor state. -/
def LineFollower.runOps (ops : List Op) : LineFollower :=
  ops.foldl LineFollower.applyOp LineFollower.initial

/-- Loop condition of `waitForLineAfterLeft` / `waitForLineAfterRight`
(lines 216, 227) and of the third loop of `waitForLineAfterUturn` (line
252): centre sensor active and one of the inner flanks active. -/
def lineSettled (r : Sensors) : Bool :=
  r.s3 == 1 && (r.s2 == 1 || r.s4 == 1)

/-- Loop condition of the first wait loop of `waitForLineAfterUturn` (line
242): centre or right-inner sensor active. -/
def centerish (r : Sensors) : Bool :=
  r.s3 == 1 || r.s4 == 1

/-- Loop condition of the second wait loop of `waitForLineAfterUturn` (line
246): all five sensors simultaneously inactive. -/
def allInactive (r : Sensors) : Bool :=
  r.s1 == 0 && r.s2 == 0 && r.s3 == 0 && r.s4 == 0 && r.s5 == 0

/-- A `while (true) { readSensors(...); if (cond) break; }` loop over a
stream of sensor reads: consume reads until the first one satisfying `p`
and return the remaining stream, `none` when the supplied reads run out
first (the unbounded hang of the source). -/
def waitUntil (p : Sensors → Bool) : List Sensors → Option (List Sensors)
  | [] => none
  | r :: rest => if p r then some rest else waitUntil p rest

/-- `LineFollower::waitForLineAfterLeft` (lines 210-220). -/
def waitForLineAfterLeft (reads : List Sensors) : Option (List Sensors) :=
  waitUntil lineSettled reads

/-- `LineFollower::waitForLineAfterRight` (lines 222-231). -/
def waitForLineAfterRight (reads : List Sensors) : Option (List Sensors) :=
  waitUntil lineSettled reads

/-- `LineFollower::waitForLineAfterUturn` (lines 233-256): three blocking
loops in sequence — first line crossing (`centerish`), clearing the false
line (`allInactive`), then true-line settlement (`lineSettled`). -/
def waitForLineAfterUturn (reads : List Sensors) : Option (List Sensors) :=
  (waitUntil centerish reads).bind fun r2 =>
    (waitUntil allInactive r2).bind fun r3 =>
      waitUntil lineSettled r3

/-- The decoded content of one JSON command line, with exactly the fields
the `NetworkManager` handlers access.  Each field is `none` when absent
from the message or not of the accessed type — in that case ArduinoJson's
`doc["k"]` yields a null `const char*` / the `| default` fallback. -/
structure JsonDoc where
  cmd : Option String
  path : Option String
  target_node : Option String
  action : Option String
  count : Option Int
  device : Option String
  devState : Option String
  deriving DecidableEq, Repr

/-- A JSON document with no fields set. -/
def JsonDoc.empty : JsonDoc :=
  { cmd := none, path := none, target_node := none, action := none,
    count := none, device := none, devState := none }

/-- One TCP response line written by `NetworkManager::sendResponse`. -/
structure Response where
  status : String
  msg : String
  deriving DecidableEq, Repr

/-- `NetworkManager::handleMove` (lines 226-262): with a `path` field,
install the path on the follower, start it, respond SUCCESS; with only a
`target_node` field, acknowledge with SUCCESS (navigation unimplemented);
with neither, respond FAIL and leave the follower untouched. -/
def NetworkManager.handleMove (doc : JsonDoc) (lf : LineFollower) :
    LineFollower × List Response :=
  match doc.path with
  | some p =>
      ((lf.setPath p).start, [{ status := "SUCCESS", msg := "경로 추종 시작" }])
  | none =>
      match doc.target_node with
      | some _ => (lf, [{ status := "SUCCESS", msg := "노드 이동 명령 수신 확인" }])
      | none => (lf, [{ status := "FAIL", msg := "path 또는 target_node 필드 필요" }])

/-- `NetworkManager::handleTask` (lines 264-282): logs `action` and `count`
(default 1) and acknowledges with SUCCESS; actuator execution is an
unimplemented extension point, the follower is untouched. -/
def NetworkManager.handleTask (_doc : JsonDoc) (lf : LineFollower) :
    LineFollower × List Response :=
  (lf, [{ status := "SUCCESS", msg := "작업 명령 수신 확인" }])

/-- `NetworkManager::handleManual` (lines 284-304): logs `device` and
`state` and acknowledges with SUCCESS; GPIO execution is an unimplemented
extension point, the follower is untouched. -/
def NetworkManager.handleManual (_doc : JsonDoc) (lf : LineFollower) :
    LineFollower × List Response :=
  (lf, [{ status := "SUCCESS", msg := "수동 제어 수신 확인" }])

/-- The dispatch part of `NetworkManager::handleIncoming` (lines 94-133)
for one complete received line.  `parsed` is the outcome of
`parseCommand`: `none` on a JSON parse error (answered with one FAIL),
`some doc` on success.  The source then runs
`const char* cmd = doc["cmd"]; if (strcmp(cmd, "MOVE") == 0) ...`:
when the `cmd` field is missing (or not a string) ArduinoJson yields a
null pointer and `strcmp(nullptr, "MOVE")` is undefined behaviour — a
crash on the target, with no response written; this is modelled as `none`.
The `_lineFollower.update()` call that precedes the dispatch, and the
early return when no line is buffered, write no response and are outside
this model; `lf` is the follower state at dispatch time. -/
def NetworkManager.handleIncoming (parsed : Option JsonDoc) (lf : LineFollower) :
    Option (LineFollower × List Response) :=
  match parsed with
  | none => some (lf, [{ status := "FAIL", msg := "JSON 파싱 실패" }])
  | some doc =>
      match doc.cmd with
      | none => none
      | some c =>
          if c = "MOVE" then some (NetworkManager.handleMove doc lf)
          else if c = "TASK" then some (NetworkManager.handleTask doc lf)
          else if c = "MANUAL" then some (NetworkManager.handleManual doc lf)
          else some (lf, [{ status := "FAIL", msg := "알 수 없는 명령" }])

/-- All 32 assignments of 0 / 1 to the five sensor channels. -/
def allPatterns : List Sensors :=
  [0, 1].flatMap fun a =>
    [0, 1].flatMap fun b =>
      [0, 1].flatMap fun c =>
        [0, 1].flatMap fun d =>
          [0, 1].map fun e => { s1 := a, s2 := b, s3 := c, s4 := d, s5 := e }

/-- Outcome vocabulary of the spec's line-centering rule (§4.1). -/
inductive CenteringOutcome
  | Forward
  | SoftLeft
  | SoftRight
  | HardLeft
  | HardRight
  | LineLost
  deriving DecidableEq, Repr

/-- Modelled from the spec: the ordered, first-match-wins line-centering
rule of §4.1 — (1) centre active and both flanks inactive, reading "both
flanks" as the outermost pair s1/s5 the way the source's first condition
does; (2) left-inner active, left-outer inactive; (3) right-inner active,
right-outer inactive; (4) left-outer active; (5) right-outer active;
(6) otherwise line lost. -/
def specLineCentering (s1 s2 s3 s4 s5 : Nat) : CenteringOutcome :=
  if s3 = 1 ∧ s1 = 0 ∧ s5 = 0 then .Forward
  else if s2 = 1 ∧ s1 = 0 then .SoftLeft
  else if s4 = 1 ∧ s5 = 0 then .SoftRight
  else if s1 = 1 then .HardLeft
  else if s5 = 1 then .HardRight
  else .LineLost

/-- The `RobotState` the source assigns for each spec outcome. -/
def CenteringOutcome.toState : CenteringOutcome → RobotState
  | .Forward => .FORWARD
  | .SoftLeft => .SOFT_LEFT
  | .SoftRight => .SOFT_RIGHT
  | .HardLeft => .HARD_LEFT
  | .HardRight => .HARD_RIGHT
  | .LineLost => .OUT_OF_LINE

/-- Claim C1, counterexample to the pattern count: of the 32 distinct
five-channel patterns, crossroad detection returns false on 21, not on 32
as the spec counts them. -/
theorem detectCrossroad_false_on_21_not_32 :
    allPatterns.length = 32 ∧ allPatterns.Nodup ∧
    (allPatterns.filter fun r =>
        ! LineFollower.detectCrossroad r.s1 r.s2 r.s3 r.s4 r.s5).length = 21 ∧
    ¬ (allPatterns.filter fun r =>
        ! LineFollower.detectCrossroad r.s1 r.s2 r.s3 r.s4 r.s5).length = 32 := by
  decide

/-- Claim C1 (amended): for every assignment of 0 / 1 to the five channels,
crossroad detection returns true exactly when s1 = 1 and s5 = 1, or when
s2 = 1, s4 = 1 and s3 = 0; it returns false on the remaining patterns,
which number 21 of the 32 total. -/
theorem detectCrossroad_rule (s1 s2 s3 s4 s5 : Nat)
    (h1 : s1 = 0 ∨ s1 = 1) (h2 : s2 = 0 ∨ s2 = 1) (h3 : s3 = 0 ∨ s3 = 1)
    (h4 : s4 = 0 ∨ s4 = 1) (h5 : s5 = 0 ∨ s5 = 1) :
    (LineFollower.detectCrossroad s1 s2 s3 s4 s5 = true ↔
      ((s1 = 1 ∧ s5 = 1) ∨ (s2 = 1 ∧ s4 = 1 ∧ s3 = 0))) ∧
    (allPatterns.filter fun r =>
        ! LineFollower.detectCrossroad r.s1 r.s2 r.s3 r.s4 r.s5).length = 21 := by
  refine ⟨?_, by decide⟩
  rcases h1 with rfl | rfl <;> rcases h2 with rfl | rfl <;> rcases h3 with rfl | rfl <;>
    rcases h4 with rfl | rfl <;> rcases h5 with rfl | rfl <;> decide

/-- Witness for the crossroad-detection rule at the pattern (1,0,0,0,1). -/
theorem detectCrossroad_rule_witness :
    (LineFollower.detectCrossroad 1 0 0 0 1 = true ↔
      ((1 = 1 ∧ 1 = 1) ∨ (0 = 1 ∧ 0 = 1 ∧ 0 = 0))) ∧
    (allPatterns.filter fun r =>
        ! LineFollower.detectCrossroad r.s1 r.s2 r.s3 r.s4 r.s5).length = 21 :=
  detectCrossroad_rule 1 0 0 0 1 (Or.inr rfl) (Or.inl rfl) (Or.inl rfl)
    (Or.inl rfl) (Or.inr rfl)

/-- Claim C2: on every 0 / 1 sensor pattern with no crossroad detected, one
line-centering step sets exactly the state selected by the ordered
first-match rule of spec §4.1, that state is one of the six centering
outcomes, and in the line-lost case the motors are halted. -/
theorem followLine_ordered_rule (lf : LineFollower) (s1 s2 s3 s4 s5 : Nat)
    (h1 : s1 = 0 ∨ s1 = 1) (h2 : s2 = 0 ∨ s2 = 1) (h3 : s3 = 0 ∨ s3 = 1)
    (h4 : s4 = 0 ∨ s4 = 1) (h5 : s5 = 0 ∨ s5 = 1)
    (hnc : LineFollower.detectCrossroad s1 s2 s3 s4 s5 = false) :
    (lf.followLine s1 s2 s3 s4 s5).1.state
        = (specLineCentering s1 s2 s3 s4 s5).toState ∧
    (lf.followLine s1 s2 s3 s4 s5).1.state ∈
      [RobotState.FORWARD, RobotState.SOFT_LEFT, RobotState.SOFT_RIGHT,
       RobotState.HARD_LEFT, RobotState.HARD_RIGHT, RobotState.OUT_OF_LINE] ∧
    (specLineCentering s1 s2 s3 s4 s5 = CenteringOutcome.LineLost →
      (lf.followLine s1 s2 s3 s4 s5).2 = MotorAction.stop) := by
  rcases h1 with rfl | rfl <;> rcases h2 with rfl | rfl <;> rcases h3 with rfl | rfl <;>
    rcases h4 with rfl | rfl <;> rcases h5 with rfl | rfl <;>
    simp_all [LineFollower.followLine, specLineCentering, CenteringOutcome.toState,
      LineFollower.detectCrossroad]

/-- Witness for the line-centering rule at the centred pattern (0,0,1,0,0). -/
theorem followLine_ordered_rule_witness :
    (LineFollower.initial.followLine 0 0 1 0 0).1.state
        = (specLineCentering 0 0 1 0 0).toState ∧
    (LineFollower.initial.followLine 0 0 1 0 0).1.state ∈
      [RobotState.FORWARD, RobotState.SOFT_LEFT, RobotState.SOFT_RIGHT,
       RobotState.HARD_LEFT, RobotState.HARD_RIGHT, RobotState.OUT_OF_LINE] ∧
    (specLineCentering 0 0 1 0 0 = CenteringOutcome.LineLost →
      (LineFollower.initial.followLine 0 0 1 0 0).2 = MotorAction.stop) :=
  followLine_ordered_rule LineFollower.initial 0 0 1 0 0 (Or.inl rfl) (Or.inl rfl)
    (Or.inr rfl) (Or.inl rfl) (Or.inl rfl) (by decide)

/-- Helper: with the index at or past the path length, operator execution
arrives and halts without touching the index or the path. -/
theorem exec_exhausted (lf : LineFollower)
    (h : lf.pathString.length ≤ lf.currentStep) :
    lf.executeCrossroadCommand =
      ({ lf with state := .ARRIVED, nodeName := "도착", isRunning := false }, []) := by
  simp [LineFollower.executeCrossroadCommand, h]

/-- Helper: with the index strictly inside the path, operator execution
increments the index by exactly one and leaves the path string unchanged,
whichever switch branch runs. -/
theorem exec_step_eq (lf : LineFollower)
    (h : lf.currentStep < lf.pathString.length) :
    (lf.executeCrossroadCommand).1.currentStep = lf.currentStep + 1 ∧
    (lf.executeCrossroadCommand).1.pathString = lf.pathString := by
  have hnle : ¬ lf.pathString.length ≤ lf.currentStep := by omega
  rcases hv : PathCommand.ofInt (LineFollower.cmdValueAt lf.pathString lf.currentStep) with
    _ | _ | _ | _ | _ | _ <;>
    simp [LineFollower.executeCrossroadCommand, hnle, hv]

/-- Claim C5: when operator execution fires with the progress index equal to
the path length, or with the current operator being End (digit '5'), the
follower ends in state ARRIVED with the arrived label "도착" and the running
flag cleared, whatever else the path string contains. -/
theorem exec_arrives_on_exhausted_or_end (lf : LineFollower) :
    (lf.currentStep = lf.pathString.length →
      ((lf.executeCrossroadCommand).1.state = RobotState.ARRIVED ∧
       (lf.executeCrossroadCommand).1.nodeName = "도착" ∧
       (lf.executeCrossroadCommand).1.isRunning = false)) ∧
    (lf.currentStep < lf.pathString.length →
      LineFollower.charAt lf.pathString lf.currentStep = '5' →
      ((lf.executeCrossroadCommand).1.state = RobotState.ARRIVED ∧
       (lf.executeCrossroadCommand).1.nodeName = "도착" ∧
       (lf.executeCrossroadCommand).1.isRunning = false)) := by
  constructor
  · intro h
    rw [exec_exhausted lf (le_of_eq h.symm)]
    exact ⟨rfl, rfl, rfl⟩
  · intro h hc
    have hnle : ¬ lf.pathString.length ≤ lf.currentStep := by omega
    have hv : LineFollower.cmdValueAt lf.pathString lf.currentStep = 5 := by
      rw [LineFollower.cmdValueAt, hc]; rfl
    have hpc : PathCommand.ofInt 5 = PathCommand.END := rfl
    simp [LineFollower.executeCrossroadCommand, hnle, hv, hpc]

/-- Witness for arrival: a follower one step into the one-operator path "5"
is exhausted and arrives; a follower at step 0 of "5" reads the End
operator and arrives. -/
theorem exec_arrives_on_exhausted_or_end_witness :
    ((({ LineFollower.initial with pathString := "5", currentStep := 1
        } : LineFollower).executeCrossroadCommand).1.state = RobotState.ARRIVED ∧
     (({ LineFollower.initial with pathString := "5", currentStep := 1
        } : LineFollower).executeCrossroadCommand).1.nodeName = "도착" ∧
     (({ LineFollower.initial with pathString := "5", currentStep := 1
        } : LineFollower).executeCrossroadCommand).1.isRunning = false) ∧
    ((({ LineFollower.initial with pathString := "5"
        } : LineFollower).executeCrossroadCommand).1.state = RobotState.ARRIVED ∧
     (({ LineFollower.initial with pathString := "5"
        } : LineFollower).executeCrossroadCommand).1.nodeName = "도착" ∧
     (({ LineFollower.initial with pathString := "5"
        } : LineFollower).executeCrossroadCommand).1.isRunning = false) :=
  ⟨(exec_arrives_on_exhausted_or_end
      { LineFollower.initial with pathString := "5", currentStep := 1 }).1 (by decide),
   (exec_arrives_on_exhausted_or_end
      { LineFollower.initial with pathString := "5" }).2 (by decide) (by decide)⟩

/-- Claim C7: whenever operator execution consumes an operator (the index is
strictly inside the path, so Left, Right, UTurn, Straight, End or an
unrecognized digit is read), the progress index increments by exactly one
regardless of the branch taken. -/
theorem exec_increments_index (lf : LineFollower)
    (h : lf.currentStep < lf.pathString.length) :
    (lf.executeCrossroadCommand).1.currentStep = lf.currentStep + 1 :=
  (exec_step_eq lf h).1

/-- Witness for the index increment at step 0 of the path "9", whose digit
9 is an unrecognized operator handled by the default branch. -/
theorem exec_increments_index_witness :
    (({ LineFollower.initial with pathString := "9"
       } : LineFollower).executeCrossroadCommand).1.currentStep = 0 + 1 :=
  exec_increments_index { LineFollower.initial with pathString := "9" } (by decide)

/-- The index invariant of the data model: the progress index never exceeds
the current path length (it is a `Nat`, so never below 0). -/
def stepInBounds (lf : LineFollower) : Prop :=
  lf.currentStep ≤ lf.pathString.length

/-- Helper: one line-centering step touches neither the progress index nor
the path string. -/
theorem followLine_keeps_progress (lf : LineFollower) (s1 s2 s3 s4 s5 : Nat) :
    (lf.followLine s1 s2 s3 s4 s5).1.currentStep = lf.currentStep ∧
    (lf.followLine s1 s2 s3 s4 s5).1.pathString = lf.pathString := by
  unfold LineFollower.followLine
  (repeat' split) <;> exact ⟨rfl, rfl⟩

/-- Helper: operator execution preserves the index invariant. -/
theorem exec_preserves_inBounds (lf : LineFollower) (h : stepInBounds lf) :
    stepInBounds (lf.executeCrossroadCommand).1 := by
  unfold stepInBounds at *
  rcases lt_or_ge lf.currentStep lf.pathString.length with hlt | hge
  · obtain ⟨h1, h2⟩ := exec_step_eq lf hlt
    rw [h1, h2]
    omega
  · rw [exec_exhausted lf hge]
    exact h

/-- Helper: every public operation preserves the index invariant. -/
theorem applyOp_preserves_inBounds (lf : LineFollower) (op : Op)
    (h : stepInBounds lf) : stepInBounds (lf.applyOp op) := by
  cases op with
  | setPathOp p =>
      show stepInBounds (lf.setPath p)
      simp [LineFollower.setPath, stepInBounds]
  | startOp =>
      show stepInBounds lf.start
      unfold stepInBounds LineFollower.start
      split
      · exact h
      · simp
  | stopOp =>
      exact h
  | updateOp r =>
      show stepInBounds (lf.update r).1
      unfold LineFollower.update
      dsimp only
      split
      · exact h
      · split
        · exact exec_preserves_inBounds _ h
        · have hp := followLine_keeps_progress
            { lf with s1 := r.s1, s2 := r.s2, s3 := r.s3, s4 := r.s4, s5 := r.s5 }
            r.s1 r.s2 r.s3 r.s4 r.s5
          unfold stepInBounds
          rw [hp.1, hp.2]
          exact h

/-- Helper: the invariant holds along every operation sequence from any
state satisfying it. -/
theorem foldl_preserves_inBounds (ops : List Op) (lf : LineFollower)
    (h : stepInBounds lf) : stepInBounds (ops.foldl LineFollower.applyOp lf) := by
  induction ops generalizing lf with
  | nil => exact h
  | cons op rest ih => exact ih _ (applyOp_preserves_inBounds lf op h)

/-- Claim C6: in every follower state reachable from the constructor state
by setPath / start / stop / update calls, the progress index lies in
[0, path length] (the lower bound holds because the index is a `Nat`), and
an index equal to the length means the path is exhausted: the next operator
execution arrives and stops running. -/
theorem runOps_index_in_bounds (ops : List Op) :
    (LineFollower.runOps ops).currentStep ≤ (LineFollower.runOps ops).pathString.length ∧
    ((LineFollower.runOps ops).currentStep = (LineFollower.runOps ops).pathString.length →
      (((LineFollower.runOps ops).executeCrossroadCommand).1.state = RobotState.ARRIVED ∧
       ((LineFollower.runOps ops).executeCrossroadCommand).1.isRunning = false)) := by
  refine ⟨foldl_preserves_inBounds ops LineFollower.initial
    (by simp [stepInBounds, LineFollower.initial]), ?_⟩
  intro h
  rw [exec_exhausted _ (le_of_eq h.symm)]
  exact ⟨rfl, rfl⟩

/-- Witness: after setting path "4", starting, and one update on the
crossroad pattern (1,0,0,0,1), the index is 1 = length, in bounds, and the
next operator execution arrives. -/
theorem runOps_index_in_bounds_witness :
    (LineFollower.runOps
        [Op.setPathOp "4", Op.startOp, Op.updateOp ⟨1, 0, 0, 0, 1⟩]).currentStep ≤
      (LineFollower.runOps
        [Op.setPathOp "4", Op.startOp, Op.updateOp ⟨1, 0, 0, 0, 1⟩]).pathString.length ∧
    (((LineFollower.runOps
        [Op.setPathOp "4", Op.startOp, Op.updateOp ⟨1, 0, 0, 0, 1⟩]).executeCrossroadCommand).1.state
        = RobotState.ARRIVED ∧
     ((LineFollower.runOps
        [Op.setPathOp "4", Op.startOp, Op.updateOp ⟨1, 0, 0, 0, 1⟩]).executeCrossroadCommand).1.isRunning
        = false) :=
  ⟨(runOps_index_in_bounds [Op.setPathOp "4", Op.startOp, Op.updateOp ⟨1, 0, 0, 0, 1⟩]).1,
   (runOps_index_in_bounds [Op.setPathOp "4", Op.startOp, Op.updateOp ⟨1, 0, 0, 0, 1⟩]).2
     (by decide)⟩

/-- Claim C8: starting with an empty path is a no-op (the whole observable
state — running flag, robot state, index, node label — is the prior one);
starting with a non-empty path makes the follower running in state FORWARD
with index 0 and the start label "출발". -/
theorem start_noop_or_starts (lf : LineFollower) :
    (lf.pathString.length = 0 → lf.start = lf) ∧
    (lf.pathString.length ≠ 0 →
      (lf.start.isRunning = true ∧ lf.start.state = RobotState.FORWARD ∧
       lf.start.currentStep = 0 ∧ lf.start.nodeName = "출발")) := by
  constructor
  · intro h
    simp [LineFollower.start, h]
  · intro h
    simp [LineFollower.start, h]

/-- Witness: starting the constructor state (empty path) changes nothing;
starting after setting path "4" runs forward from step 0 at the start
label. -/
theorem start_noop_or_starts_witness :
    (LineFollower.initial.start = LineFollower.initial) ∧
    ((LineFollower.initial.setPath "4").start.isRunning = true ∧
     (LineFollower.initial.setPath "4").start.state = RobotState.FORWARD ∧
     (LineFollower.initial.setPath "4").start.currentStep = 0 ∧
     (LineFollower.initial.setPath "4").start.nodeName = "출발") :=
  ⟨(start_noop_or_starts LineFollower.initial).1 rfl,
   (start_noop_or_starts (LineFollower.initial.setPath "4")).2 (by decide)⟩

/-- Claim C4: dispatching a decoded MOVE that carries a path field installs
the path, starts the follower, and yields exactly the one SUCCESS response
(with path "4" the follower is then running); a decoded MOVE with neither a
path nor a target_node field yields exactly the one FAIL response and
hands back the follower unchanged. -/
theorem handleMove_path_or_missing (lf : LineFollower) (p : String) :
    NetworkManager.handleIncoming
        (some { JsonDoc.empty with cmd := some "MOVE", path := some p }) lf
      = some ((lf.setPath p).start,
              [{ status := "SUCCESS", msg := "경로 추종 시작" }]) ∧
    ((lf.setPath "4").start).isRunning = true ∧
    NetworkManager.handleIncoming
        (some { JsonDoc.empty with cmd := some "MOVE" }) lf
      = some (lf, [{ status := "FAIL", msg := "path 또는 target_node 필드 필요" }]) := by
  refine ⟨rfl, ?_, rfl⟩
  rfl

/-- Claim C10: a decoded MOVE whose path field is the empty string installs
the empty path and is acknowledged by the one SUCCESS path-started
response, yet `start()` is a no-op on the empty path, so a non-running
follower stays non-running and keeps its state. -/
theorem handleMove_empty_path (lf : LineFollower) (h : lf.isRunning = false) :
    NetworkManager.handleIncoming
        (some { JsonDoc.empty with cmd := some "MOVE", path := some "" }) lf
      = some (lf.setPath "", [{ status := "SUCCESS", msg := "경로 추종 시작" }]) ∧
    (lf.setPath "").start = lf.setPath "" ∧
    (lf.setPath "").isRunning = false ∧
    (lf.setPath "").state = lf.state :=
  ⟨rfl, rfl, h, rfl⟩

/-- Witness for the empty-path MOVE at the constructor state. -/
theorem handleMove_empty_path_witness :
    NetworkManager.handleIncoming
        (some { JsonDoc.empty with cmd := some "MOVE", path := some "" })
        LineFollower.initial
      = some (LineFollower.initial.setPath "",
              [{ status := "SUCCESS", msg := "경로 추종 시작" }]) ∧
    (LineFollower.initial.setPath "").start = LineFollower.initial.setPath "" ∧
    (LineFollower.initial.setPath "").isRunning = false ∧
    (LineFollower.initial.setPath "").state = LineFollower.initial.state :=
  handleMove_empty_path LineFollower.initial rfl

/-- Helper: `handleMove` writes exactly one response whatever the decoded
document contains. -/
theorem handleMove_one_response (doc : JsonDoc) (lf : LineFollower) :
    (NetworkManager.handleMove doc lf).2.length = 1 := by
  cases hp : doc.path with
  | some p => simp [NetworkManager.handleMove, hp]
  | none => cases ht : doc.target_node <;> simp [NetworkManager.handleMove, hp, ht]

/-- Claim C3 (code evaluated at the failing input): a successfully parsed
line with no cmd field makes the dispatcher call `strcmp` on a null
pointer — a crash, modelled `none`, with no response written — while a
parse failure yields exactly the one FAIL response and every non-crashing
dispatch yields exactly one response. -/
theorem handleIncoming_missing_cmd_crashes :
    NetworkManager.handleIncoming (some JsonDoc.empty) LineFollower.initial = none ∧
    NetworkManager.handleIncoming none LineFollower.initial
      = some (LineFollower.initial, [{ status := "FAIL", msg := "JSON 파싱 실패" }]) ∧
    (∀ parsed lf out, NetworkManager.handleIncoming parsed lf = some out →
      out.2.length = 1) := by
  refine ⟨rfl, rfl, ?_⟩
  intro parsed lf out h
  rcases parsed with _ | doc
  · simp only [NetworkManager.handleIncoming, Option.some.injEq] at h
    rw [← h]
    rfl
  · rcases hc : doc.cmd with _ | c
    · simp only [NetworkManager.handleIncoming, hc] at h
      exact Option.noConfusion h
    · simp only [NetworkManager.handleIncoming, hc] at h
      split at h
      · injection h with h
        rw [← h]
        exact handleMove_one_response doc lf
      · split at h
        · injection h with h
          rw [← h]
          rfl
        · split at h
          · injection h with h
            rw [← h]
            rfl
          · injection h with h
            rw [← h]
            rfl

/-- Witness for the one-response property at a parse failure. -/
theorem handleIncoming_missing_cmd_crashes_witness :
    ((LineFollower.initial,
      [({ status := "FAIL", msg := "JSON 파싱 실패" } : Response)]) :
        LineFollower × List Response).2.length = 1 :=
  handleIncoming_missing_cmd_crashes.2.2 none LineFollower.initial
    (LineFollower.initial, [{ status := "FAIL", msg := "JSON 파싱 실패" }]) rfl

/-- Helper: a busy-wait loop returning `some rest` has consumed a prefix of
reads none of which satisfies the condition, then exactly the first
satisfying read. -/
theorem waitUntil_eq_some (p : Sensors → Bool) (reads rest : List Sensors)
    (h : waitUntil p reads = some rest) :
    ∃ pre x, reads = pre ++ x :: rest ∧ p x = true ∧ ∀ y ∈ pre, p y = false := by
  induction reads generalizing rest with
  | nil => exact Option.noConfusion h
  | cons r rs ih =>
      by_cases hp : p r = true
      · simp only [waitUntil, hp, if_true, Option.some.injEq] at h
        exact ⟨[], r, by simp [h], hp, by simp⟩
      · simp only [waitUntil, hp, if_false] at h
        obtain ⟨pre, x, he, hx, hpre⟩ := ih rest h
        refine ⟨r :: pre, x, by simp [he], hx, ?_⟩
        intro y hy
        rcases List.mem_cons.mp hy with rfl | hy
        · exact Bool.not_eq_true _ ▸ Bool.of_not_eq_true hp
        · exact hpre y hy

/-- Claim C9: executing a UTurn operator drives forward for the fixed
150 ms, pivots with the hard-speed u-turn profile for the fixed 250 ms,
holds state FINDING_UTURN (ExecutingUTurn), and then blocks through three
ordered wait phases, each ending at the first read satisfying it — (1) a
centre-ish sensor active, (2) all five sensors inactive, (3) centre plus an
inner flank active — the third phase being exactly the settle rule used
after Left and Right turns. -/
theorem uturn_three_phase (lf : LineFollower) (reads out : List Sensors)
    (hstep : lf.currentStep < lf.pathString.length)
    (hch : LineFollower.charAt lf.pathString lf.currentStep = '3')
    (hw : waitForLineAfterUturn reads = some out) :
    lf.executeCrossroadCommand =
      ({ lf with state := RobotState.FINDING_UTURN, currentStep := lf.currentStep + 1 },
       [Event.motor MotorAction.goForward, Event.delayMs 150,
        Event.motor MotorAction.uTurnRight, Event.delayMs 250, Event.waitAfterUturn]) ∧
    (∃ pre1 x1 pre2 x2 pre3 x3,
       reads = pre1 ++ x1 :: (pre2 ++ x2 :: (pre3 ++ x3 :: out)) ∧
       centerish x1 = true ∧ (∀ y ∈ pre1, centerish y = false) ∧
       allInactive x2 = true ∧ (∀ y ∈ pre2, allInactive y = false) ∧
       lineSettled x3 = true ∧ (∀ y ∈ pre3, lineSettled y = false)) ∧
    (∀ rs, waitForLineAfterUturn rs =
       (waitUntil centerish rs).bind fun r2 =>
         (waitUntil allInactive r2).bind fun r3 => waitForLineAfterLeft r3) := by
  refine ⟨?_, ?_, fun rs => rfl⟩
  · have hnle : ¬ lf.pathString.length ≤ lf.currentStep := by omega
    have hv : LineFollower.cmdValueAt lf.pathString lf.currentStep = 3 := by
      rw [LineFollower.cmdValueAt, hch]; rfl
    have hpc : PathCommand.ofInt 3 = PathCommand.UTURN := rfl
    simp [LineFollower.executeCrossroadCommand, hnle, hv, hpc]
  · unfold waitForLineAfterUturn at hw
    obtain ⟨r2, h1, hw2⟩ := Option.bind_eq_some.mp hw
    obtain ⟨r3, h2, h3⟩ := Option.bind_eq_some.mp hw2
    obtain ⟨pre1, x1, e1, p1, q1⟩ := waitUntil_eq_some centerish reads r2 h1
    obtain ⟨pre2, x2, e2, p2, q2⟩ := waitUntil_eq_some allInactive r2 r3 h2
    obtain ⟨pre3, x3, e3, p3, q3⟩ := waitUntil_eq_some lineSettled r3 out h3
    exact ⟨pre1, x1, pre2, x2, pre3, x3, by rw [e1, e2, e3], p1, q1, p2, q2, p3, q3⟩

/-- Witness: a follower at the UTurn operator of path "3", with a read
stream crossing a line, clearing it, then settling, runs the whole
three-phase wait. -/
theorem uturn_three_phase_witness :
    (({ LineFollower.initial with pathString := "3" } : LineFollower).executeCrossroadCommand =
      ({ { LineFollower.initial with pathString := "3" } with
          state := RobotState.FINDING_UTURN,
          currentStep := ({ LineFollower.initial with pathString := "3" } :
            LineFollower).currentStep + 1 },
       [Event.motor MotorAction.goForward, Event.delayMs 150,
        Event.motor MotorAction.uTurnRight, Event.delayMs 250, Event.waitAfterUturn])) ∧
    (∃ pre1 x1 pre2 x2 pre3 x3,
       ([⟨0, 0, 1, 0, 0⟩, ⟨0, 0, 0, 0, 0⟩, ⟨0, 1, 1, 0, 0⟩] : List Sensors) =
         pre1 ++ x1 :: (pre2 ++ x2 :: (pre3 ++ x3 :: [])) ∧
       centerish x1 = true ∧ (∀ y ∈ pre1, centerish y = false) ∧
       allInactive x2 = true ∧ (∀ y ∈ pre2, allInactive y = false) ∧
       lineSettled x3 = true ∧ (∀ y ∈ pre3, lineSettled y = false)) ∧
    (∀ rs, waitForLineAfterUturn rs =
       (waitUntil centerish rs).bind fun r2 =>
         (waitUntil allInactive r2).bind fun r3 => waitForLineAfterLeft r3) :=
  uturn_three_phase { LineFollower.initial with pathString := "3" }
    [⟨0, 0, 1, 0, 0⟩, ⟨0, 0, 0, 0, 0⟩, ⟨0, 1, 1, 0, 0⟩] [] (by decide) (by decide)
    (by decide)
